import Mathlib

/-!
# Shallow embedding of `seer` (src/__init__.py)

The repository is a single Python module with two classes:

* `LiveConfig(dict)` — a read-through config mapping mirroring a file on
  disk, reloading when stale (the spec's *RefreshingMap*);
* `Seer` — a role→server selector built on one `LiveConfig`
  (the spec's *RoleSeer*).

Modelling decisions:

* Time is an abstract instant `Nat` (the code only compares
  `datetime.utcnow() > self._last_load + timedelta(seconds=self._reload_every)`,
  a linear-order comparison after adding the interval).
* The file system at the moment of a reload is a `FileState`: whether
  `os.path.exists` holds, and what the opaque external parsers
  (`yaml.load` + `dict.update`, `json.load` + `dict.update`) would produce
  on the file's current contents — either a mapping or an exception.
* Python dicts are association lists (`Dict α`) with Python's
  `__setitem__` semantics (replace in place, else append) and first-match
  lookup; keys are strings. Python's `str.endswith` is modelled on the
  character list (`pyEndsWith`).
* Exceptions are explicit: stateful operations return the post-state
  paired with `Except PyErr`; `LOG.warning` / `LOG.error` calls are
  returned as a `List LogEvent` from `reload`.
* `random.choice(keys)` is modelled by an arbitrary index parameter
  `pick : Nat`, reduced modulo the key count (`random.choice` raises
  `IndexError` exactly when the list is empty, otherwise returns an
  arbitrary element).
-/

/-- A Python `dict` with string keys, as an association list in insertion
order (CPython preserves insertion order; lookup is by key). -/
abbrev Dict (α : Type) : Type := List (String × α)

namespace Dict

variable {α : Type}

/-- `d[key]` lookup: the value at `key`, if present. -/
def lookup : Dict α → String → Option α
  | [], _ => none
  | (k, v) :: rest, key => if k = key then some v else lookup rest key

/-- Python `d[key] = v` (`dict.__setitem__`): replace the value in place if
the key is present, otherwise append the new binding. -/
def insert : Dict α → String → α → Dict α
  | [], key, v => [(key, v)]
  | (k, w) :: rest, key, v =>
      if k = key then (k, v) :: rest else (k, w) :: insert rest key v

/-- Python `d.keys()` (a list in Python 2, which is what the code relies
on when it calls `random.choice` on it). -/
def keys (d : Dict α) : List String := d.map Prod.fst

end Dict

/-- Python `str.endswith(suffix)`: the suffix's characters are a suffix of
the string's characters. -/
def pyEndsWith (s suffix : String) : Bool := suffix.data.isSuffixOf s.data

/-- The Python exceptions the module can surface to a caller. -/
inductive PyErr where
  /-- `KeyError`, with its message (`raise KeyError(...)` or a plain
  missing-key `KeyError` whose message is the key itself). -/
  | keyError (msg : String)
  /-- `TypeError`, e.g. `None + timedelta` if `_last_load` were still
  `None` when `_reload_if_needed` compares it. -/
  | typeError (msg : String)
deriving DecidableEq, Repr

/-- Whether an exception is a `KeyError` (the "key-not-found kind"). -/
def PyErr.isKeyError : PyErr → Bool
  | PyErr.keyError _ => true
  | _ => false

/-- A `LOG.warning` / `LOG.error` call made during a reload. -/
inductive LogEvent where
  | warning (msg : String)
  | error (msg : String)
deriving DecidableEq, Repr

/-- Outcome of an opaque external deserializer (`yaml.load` / `json.load`
followed by `dict.update`) on the file's current contents: either the
resulting mapping, or an exception. -/
inductive ParseOutcome (α : Type) where
  | ok (m : Dict α)
  | raises
deriving DecidableEq, Repr

/-- The state of the source file at the moment of one reload attempt. -/
structure FileState (α : Type) where
  /-- `os.path.exists(filename)` -/
  present : Bool
  /-- what `self.update(yaml.load(stream))` would do after `self.clear()` -/
  yaml_load : ParseOutcome α
  /-- what `self.update(json.load(stream))` would do after `self.clear()` -/
  json_load : ParseOutcome α
deriving DecidableEq, Repr

/-- `class LiveConfig(dict)` — instance state. `contents` is the
underlying `dict` data; the other fields are the `_filename`,
`_reload_every`, `_use_timer` and `_last_load` attributes. -/
structure LiveConfig (α : Type) where
  filename : String
  reload_every : Nat
  use_timer : Bool
  last_load : Option Nat
  contents : Dict α
deriving DecidableEq, Repr

namespace LiveConfig

variable {α : Type}

/-- `LiveConfig._reload` (src/__init__.py:61-78). Sets `_last_load` to the
current time first; a missing file logs a warning and returns; otherwise
dispatch on the filename suffix (`.yaml`, then `.json`, else raise an
unsupported-format exception caught by the bare `except`). Note that in
the `.yaml`/`.json` branches `self.clear()` runs *before* the parser, so a
parser exception leaves the dict empty. The bare `except` swallows every
exception and logs `"Bad config format! ..."`. Returns the new state and
the log calls made. -/
def reload (cfg : LiveConfig α) (now : Nat) (file : FileState α) :
    LiveConfig α × List LogEvent :=
  let cfg := { cfg with last_load := some now }
  if !file.present then
    (cfg, [LogEvent.warning (cfg.filename ++ " not found")])
  else if pyEndsWith cfg.filename ".yaml" then
    match file.yaml_load with
    | ParseOutcome.ok m => ({ cfg with contents := m }, [])
    | ParseOutcome.raises =>
        ({ cfg with contents := [] },
         [LogEvent.error ("Bad config format! " ++ cfg.filename)])
  else if pyEndsWith cfg.filename ".json" then
    match file.json_load with
    | ParseOutcome.ok m => ({ cfg with contents := m }, [])
    | ParseOutcome.raises =>
        ({ cfg with contents := [] },
         [LogEvent.error ("Bad config format! " ++ cfg.filename)])
  else
    (cfg, [LogEvent.error ("Bad config format! " ++ cfg.filename)])

/-- `LiveConfig.__init__` (src/__init__.py:49-59): start from the empty
`dict`, store the parameters, set `_last_load = None`, then call
`self._reload()` synchronously. (Timer registration in `use_timer` mode
hands `self._reload` to an external scheduler and is outside the state.) -/
def init (filename : String) (reload_every : Nat) (use_timer : Bool)
    (now : Nat) (file : FileState α) : LiveConfig α :=
  ((LiveConfig.mk filename reload_every use_timer none []).reload now file).1

/-- `LiveConfig._reload_if_needed` (src/__init__.py:80-84): reload iff not
on a timer and `utcnow() > _last_load + timedelta(seconds=_reload_every)`
(strict comparison). If `_last_load` were `None`, the `+` would raise a
`TypeError`; short-circuiting `and` means timer mode never evaluates it. -/
def reload_if_needed (cfg : LiveConfig α) (now : Nat) (file : FileState α) :
    Except PyErr (LiveConfig α) :=
  if cfg.use_timer then Except.ok cfg
  else
    match cfg.last_load with
    | none =>
        Except.error (PyErr.typeError
          "unsupported operand type(s) for +: NoneType and timedelta")
    | some t =>
        if t + cfg.reload_every < now then Except.ok (cfg.reload now file).1
        else Except.ok cfg

/-- `LiveConfig.__getitem__` (src/__init__.py:86-88): staleness check,
then plain `dict` lookup, raising `KeyError(key)` when absent. Returns
the post-state and the result. -/
def getitem (cfg : LiveConfig α) (key : String) (now : Nat)
    (file : FileState α) : LiveConfig α × Except PyErr α :=
  match cfg.reload_if_needed now file with
  | Except.error e => (cfg, Except.error e)
  | Except.ok c =>
    match c.contents.lookup key with
    | some v => (c, Except.ok v)
    | none => (c, Except.error (PyErr.keyError key))

/-- `LiveConfig.get` (src/__init__.py:90-94): `__getitem__`, catching
only `KeyError` and returning the caller's default (`None` by default,
hence the `Option α` value type). -/
def get (cfg : LiveConfig α) (key : String) (default : Option α)
    (now : Nat) (file : FileState α) :
    LiveConfig α × Except PyErr (Option α) :=
  match cfg.getitem key now file with
  | (c, Except.ok v) => (c, Except.ok (some v))
  | (c, Except.error (PyErr.keyError _)) => (c, Except.ok default)
  | (c, Except.error e) => (c, Except.error e)

/-- `LiveConfig.__delitem__` (src/__init__.py:96-97): unconditionally
`raise KeyError("LiveConfig is read-only!")`. -/
def delitem (cfg : LiveConfig α) (key : String) :
    LiveConfig α × Except PyErr Unit :=
  (cfg, Except.error (PyErr.keyError "LiveConfig is read-only!"))

/-- `LiveConfig.setdefault` (src/__init__.py:99-100): unconditionally
`raise KeyError("LiveConfig is read-only!")`. -/
def setdefault (cfg : LiveConfig α) (key : String) (val : α) :
    LiveConfig α × Except PyErr α :=
  (cfg, Except.error (PyErr.keyError "LiveConfig is read-only!"))

/-- `cfg[key] = val`. `LiveConfig` does **not** override `__setitem__`,
so the inherited `dict.__setitem__` runs and stores the binding without
raising. -/
def setitem (cfg : LiveConfig α) (key : String) (val : α) :
    LiveConfig α × Except PyErr Unit :=
  ({ cfg with contents := cfg.contents.insert key val }, Except.ok ())

end LiveConfig

/-- A dynamically-typed attribute value in the role file (enough structure
for the values the module passes through untouched). -/
inductive PyVal where
  | str (s : String)
  | int (n : Int)
  | null
deriving DecidableEq, Repr

/-- One server's attribute mapping (e.g. `{ip: ..., port: ...}`). -/
abbrev Attrs : Type := Dict PyVal

/-- The per-server value stored in the role file: either an attribute
dict (possibly empty) or Python `None` (`none` here). -/
abbrev ServerData : Type := Option Attrs

/-- Python truthiness of a stored per-server value: `None` and the empty
dict are falsy. -/
def ServerData.truthy : ServerData → Bool
  | none => false
  | some a => !a.isEmpty

/-- A role's value in the role file: server name → per-server data. -/
abbrev RoleTable : Type := Dict ServerData

/-- `DEFAULT_ROLE_FILE` (src/__init__.py:14). -/
def DEFAULT_ROLE_FILE : String := "/etc/highlight/roles.yaml"

/-- `class Seer` (src/__init__.py:109-136): wraps one `LiveConfig` keyed
by role name. -/
structure Seer where
  roles : LiveConfig RoleTable
deriving DecidableEq, Repr

namespace Seer

/-- `Seer.__init__` (src/__init__.py:121-123): one owned `LiveConfig`
over the role file with `reload_every=10`. -/
def init (role_file : String) (use_timer : Bool) (now : Nat)
    (file : FileState RoleTable) : Seer :=
  Seer.mk (LiveConfig.init role_file 10 use_timer now file)

/-- `Seer.__getitem__` (src/__init__.py:125-136):

```python
try:
    name = random.choice(self._roles[key].keys())
except IndexError:
    raise KeyError("%s not found" % key)
data = self._roles[key][name]
if data:
    data = dict(data)
else:
    data = {}
data['name'] = name
return data
```

The `try` catches only `IndexError` (raised by `random.choice` on an
empty list); a `KeyError` from `self._roles[key]` propagates unchanged.
`random.choice` on a non-empty list returns an arbitrary element,
modelled by the index `pick` reduced modulo the key count. The second
`self._roles[key]` access runs `LiveConfig.__getitem__` again on the
state left by the first. `dict(data)` is a shallow copy, identity on the
immutable model. -/
def getitem (s : Seer) (key : String) (pick : Nat) (now : Nat)
    (file : FileState RoleTable) : Seer × Except PyErr Attrs :=
  match s.roles.getitem key now file with
  | (r1, Except.error e) => (Seer.mk r1, Except.error e)
  | (r1, Except.ok servers) =>
    if servers.keys.isEmpty then
      (Seer.mk r1, Except.error (PyErr.keyError (key ++ " not found")))
    else
      let name := servers.keys.getD (pick % servers.keys.length) ""
      match r1.getitem key now file with
      | (r2, Except.error e) => (Seer.mk r2, Except.error e)
      | (r2, Except.ok servers2) =>
        match servers2.lookup name with
        | none => (Seer.mk r2, Except.error (PyErr.keyError name))
        | some data =>
          let d : Attrs := if ServerData.truthy data then data.getD [] else []
          (Seer.mk r2, Except.ok (d.insert "name" (PyVal.str name)))

end Seer

/-! ## Helper lemmas -/

namespace Dict

variable {α : Type}

theorem lookup_insert_self (d : Dict α) (k : String) (v : α) :
    (d.insert k v).lookup k = some v := by
  induction d with
  | nil => simp [Dict.insert, Dict.lookup]
  | cons p rest ih =>
    obtain ⟨k0, v0⟩ := p
    by_cases h : k0 = k <;> simp [Dict.insert, Dict.lookup, h, ih]

theorem lookup_insert_ne (d : Dict α) (key k : String) (v : α) (h : k ≠ key) :
    (d.insert key v).lookup k = d.lookup k := by
  induction d with
  | nil =>
    have h' : key ≠ k := fun e => h e.symm
    simp [Dict.insert, Dict.lookup, h']
  | cons p rest ih =>
    obtain ⟨k0, v0⟩ := p
    by_cases h0 : k0 = key
    · subst h0
      have hkk : k0 ≠ k := fun e => h e.symm
      simp [Dict.insert, Dict.lookup, hkk]
    · by_cases hk : k0 = k <;> simp [Dict.insert, Dict.lookup, h0, hk, h, ih]

theorem lookup_of_mem_keys (d : Dict α) (k : String) (h : k ∈ Dict.keys d) :
    ∃ v, d.lookup k = some v := by
  induction d with
  | nil => simp [Dict.keys] at h
  | cons p rest ih =>
    obtain ⟨k0, v0⟩ := p
    by_cases hk : k0 = k
    · exact ⟨v0, by simp [Dict.lookup, hk]⟩
    · have hr : k ∈ Dict.keys rest := by
        simp [Dict.keys] at h ⊢
        rcases h with h | h
        · exact absurd h.symm hk
        · exact h
      obtain ⟨v, hv⟩ := ih hr
      exact ⟨v, by simp [Dict.lookup, hk, hv]⟩

end Dict

/-- An arbitrary-index selection from a non-empty list stays in the list. -/
theorem getD_mod_mem (l : List String) (i : Nat) (d : String) (h : l ≠ []) :
    l.getD (i % l.length) d ∈ l := by
  have hlen : 0 < l.length := List.length_pos.mpr h
  have hm : i % l.length < l.length := Nat.mod_lt _ hlen
  rw [List.getD_eq_getElem?_getD]
  rw [List.getElem?_eq_getElem hm]
  exact List.getElem_mem ..

/-- No filename matches both suffix tests: the two suffixes have the same
length, so a string ending in `".json"` cannot also end in `".yaml"`. -/
theorem pyEndsWith_json_not_yaml (s : String) (h : pyEndsWith s ".json" = true) :
    pyEndsWith s ".yaml" = false := by
  unfold pyEndsWith at h ⊢
  rw [List.isSuffixOf_iff_suffix] at h
  by_contra hy
  rw [Bool.not_eq_false, List.isSuffixOf_iff_suffix] at hy
  obtain ⟨t1, h1⟩ := h
  obtain ⟨t2, h2⟩ := hy
  rw [← h1] at h2
  have hlen : t2.length = t1.length := by
    have hl := congrArg List.length h2
    simp only [List.length_append, List.length_cons, List.length_nil] at hl
    omega
  have heq : (".yaml").data = (".json").data := List.append_inj_right h2 hlen
  exact absurd heq (by decide)

/-- A falsy stored per-server value carries no attributes. -/
theorem ServerData.truthy_false_attrs (data : ServerData)
    (h : ServerData.truthy data = false) : data.getD [] = [] := by
  cases data with
  | none => rfl
  | some a =>
    cases a with
    | nil => rfl
    | cons p rest => simp [ServerData.truthy, List.isEmpty] at h

namespace LiveConfig

variable {α : Type}

theorem reload_last_load (cfg : LiveConfig α) (now : Nat) (file : FileState α) :
    (cfg.reload now file).1.last_load = some now := by
  unfold reload
  dsimp only
  split
  · rfl
  · split
    · split <;> rfl
    · split
      · split <;> rfl
      · rfl

theorem reload_use_timer (cfg : LiveConfig α) (now : Nat) (file : FileState α) :
    (cfg.reload now file).1.use_timer = cfg.use_timer := by
  unfold reload
  dsimp only
  split
  · rfl
  · split
    · split <;> rfl
    · split
      · split <;> rfl
      · rfl

theorem reload_reload_every (cfg : LiveConfig α) (now : Nat) (file : FileState α) :
    (cfg.reload now file).1.reload_every = cfg.reload_every := by
  unfold reload
  dsimp only
  split
  · rfl
  · split
    · split <;> rfl
    · split
      · split <;> rfl
      · rfl

/-- The staleness check on a timer-mode or not-yet-stale state is a
no-op. -/
theorem reload_if_needed_eq_self (cfg : LiveConfig α) (now : Nat) (file : FileState α)
    (h : cfg.use_timer = true ∨
      ∃ t, cfg.last_load = some t ∧ ¬ t + cfg.reload_every < now) :
    cfg.reload_if_needed now file = Except.ok cfg := by
  unfold reload_if_needed
  rcases h with h | ⟨t, hl, hs⟩
  · simp [h]
  · by_cases hut : cfg.use_timer
    · simp [hut]
    · simp [hut, hl, hs]

/-- A state returned by the staleness check is already fresh at the same
instant: running the check again at the same `now` reloads nothing. -/
theorem reload_if_needed_post (cfg : LiveConfig α) (now : Nat) (file : FileState α)
    (c : LiveConfig α) (h : cfg.reload_if_needed now file = Except.ok c) :
    c.reload_if_needed now file = Except.ok c := by
  unfold reload_if_needed at h
  by_cases hut : cfg.use_timer
  · simp [hut] at h
    subst h
    exact reload_if_needed_eq_self _ _ _ (Or.inl hut)
  · simp [hut] at h
    cases hl : cfg.last_load with
    | none => rw [hl] at h; simp at h
    | some t =>
      rw [hl] at h
      dsimp only at h
      by_cases hlt : t + cfg.reload_every < now
      · rw [if_pos hlt] at h
        simp at h
        subst h
        refine reload_if_needed_eq_self _ _ _ (Or.inr ⟨now, ?_, ?_⟩)
        · exact reload_last_load cfg now file
        · rw [reload_reload_every]
          omega
      · rw [if_neg hlt] at h
        simp at h
        subst h
        exact reload_if_needed_eq_self _ _ _ (Or.inr ⟨t, hl, hlt⟩)

theorem getitem_ok (cfg : LiveConfig α) (key : String) (now : Nat)
    (file : FileState α) (r : LiveConfig α) (v : α)
    (h : cfg.getitem key now file = (r, Except.ok v)) :
    cfg.reload_if_needed now file = Except.ok r ∧ r.contents.lookup key = some v := by
  unfold getitem at h
  cases hr : cfg.reload_if_needed now file with
  | error e => rw [hr] at h; simp at h
  | ok c =>
    rw [hr] at h
    dsimp only at h
    cases hl : c.contents.lookup key with
    | some w =>
      rw [hl] at h
      obtain ⟨hc, hw⟩ := Prod.mk.inj h
      have hwv : w = v := Except.ok.inj hw
      constructor
      · exact congrArg Except.ok hc
      · rw [← hc, hl, hwv]
    | none => rw [hl] at h; simp at h

/-- A successful keyed read is stable: repeating it at the same instant on
the state it returned gives the same state and value. -/
theorem getitem_stable (cfg : LiveConfig α) (key : String) (now : Nat)
    (file : FileState α) (r : LiveConfig α) (v : α)
    (h : cfg.getitem key now file = (r, Except.ok v)) :
    r.getitem key now file = (r, Except.ok v) := by
  obtain ⟨h1, h2⟩ := getitem_ok cfg key now file r v h
  have h3 := reload_if_needed_post cfg now file r h1
  unfold getitem
  rw [h3]
  dsimp only
  rw [h2]

end LiveConfig

/-! ## Concrete fixtures used by witnesses and counterexamples -/

/-- A file state whose file is missing. -/
def missingFile : FileState Nat := ⟨false, ParseOutcome.raises, ParseOutcome.raises⟩

/-- A present file whose contents no parser accepts (e.g. overwritten
with malformed YAML). -/
def badFile : FileState Nat := ⟨true, ParseOutcome.raises, ParseOutcome.raises⟩

/-- A present file that parses as YAML to `{k: 2}`. -/
def goodFile : FileState Nat := ⟨true, ParseOutcome.ok [("k", 2)], ParseOutcome.raises⟩

/-- A config over `config.yaml` with `{master: 1}` loaded at time 0. -/
def cfgLoaded : LiveConfig Nat := ⟨"config.yaml", 60, false, some 0, [("master", 1)]⟩

/-- A pull-mode config with interval 5, last loaded at time 10. -/
def cfgPull : LiveConfig Nat := ⟨"a.yaml", 5, false, some 10, [("k", 1)]⟩

/-- A config whose filename has an unsupported suffix. -/
def cfgTxt : LiveConfig Nat := ⟨"notes.txt", 60, false, some 0, [("master", 1)]⟩

/-! ## Claims -/

/-- C8: every reload attempt stamps `lastLoadTimestamp` with the current
time regardless of what follows — missing file, parse failure or success
alike — because `self._last_load = datetime.utcnow()` is the reload's
first action. The equation holds for *every* file state, so the stamp
cannot depend on the existence check or on parsing. -/
theorem C8_reload_stamps_timestamp {α : Type} (cfg : LiveConfig α) (now : Nat)
    (file : FileState α) : ((cfg.reload now file).1).last_load = some now :=
  LiveConfig.reload_last_load cfg now file

/-- C4: constructing a `LiveConfig` against a missing file yields the
empty mapping (and is total, so nothing is raised); more generally any
reload attempt against a missing file logs a warning and leaves the
contents unchanged. -/
theorem C4_missing_file_resilience {α : Type} (filename : String) (re : Nat)
    (ut : Bool) (now : Nat) (file : FileState α) (h : file.present = false) :
    (LiveConfig.init filename re ut now file).contents = [] ∧
    ∀ cfg : LiveConfig α,
      ((cfg.reload now file).1).contents = cfg.contents ∧
      (cfg.reload now file).2 = [LogEvent.warning (cfg.filename ++ " not found")] := by
  constructor
  · unfold LiveConfig.init LiveConfig.reload
    simp [h]
  · intro cfg
    unfold LiveConfig.reload
    simp [h]

/-- Witness for C4 at a concrete missing file. -/
theorem C4_missing_file_resilience_witness :
    missingFile.present = false ∧
    ((LiveConfig.init "nope.yaml" 60 false 5 missingFile).contents = [] ∧
     ∀ cfg : LiveConfig Nat,
       ((cfg.reload 5 missingFile).1).contents = cfg.contents ∧
       (cfg.reload 5 missingFile).2 = [LogEvent.warning (cfg.filename ++ " not found")]) :=
  ⟨rfl, C4_missing_file_resilience "nope.yaml" 60 false 5 missingFile rfl⟩

/-- C2 counterexample: item assignment (`cfg["x"] = 7`) is not blocked —
`LiveConfig` never overrides `__setitem__`, so the inherited
`dict.__setitem__` succeeds and changes the mapping, contradicting "any
write raises a read-only error and leaves the mapping unchanged". -/
theorem C2_setitem_not_read_only :
    (cfgLoaded.setitem "x" 7).2 = Except.ok () ∧
    ((cfgLoaded.setitem "x" 7).1).contents = [("master", 1), ("x", 7)] ∧
    cfgLoaded.contents ≠ [("master", 1), ("x", 7)] := ⟨rfl, by decide, by decide⟩

/-- C2 (amended): the two overridden mutators — delete and set-default —
always raise the read-only `KeyError` and leave the mapping (indeed the
whole state) unchanged, for every state, key and value. -/
theorem C2_delete_setdefault_read_only {α : Type} (cfg : LiveConfig α)
    (key : String) (val : α) :
    cfg.delitem key = (cfg, Except.error (PyErr.keyError "LiveConfig is read-only!")) ∧
    cfg.setdefault key val = (cfg, Except.error (PyErr.keyError "LiveConfig is read-only!")) :=
  ⟨rfl, rfl⟩

/-- C1 (code-bug evidence): with good contents loaded and the file
overwritten so that the parser raises, a reload leaves the mapping
*empty* rather than unchanged — `self.clear()` runs before
`yaml.load`, so the caught parse exception strands the cleared dict.
The exception itself is swallowed (the reload returns normally and logs
the bad-format error), so only the contents-preservation half of the
claim fails. -/
theorem C1_malformed_reload_clears :
    ((cfgLoaded.reload 60 badFile).1).contents = [] ∧
    cfgLoaded.contents = [("master", 1)] ∧
    (cfgLoaded.reload 60 badFile).2 =
      [LogEvent.error "Bad config format! config.yaml"] := by decide

/-- C3: reload dispatches on the filename suffix — a `.yaml` path uses
the YAML parser's outcome, a `.json` path the JSON parser's (the suffix
tests are mutually exclusive, `pyEndsWith_json_not_yaml`), and any other
suffix logs the bad-format error, leaves the contents unchanged (the
unsupported-format exception fires before any `clear`), and returns
normally. -/
theorem C3_format_dispatch {α : Type} (cfg : LiveConfig α) (now : Nat)
    (file : FileState α) (hp : file.present = true) :
    (pyEndsWith cfg.filename ".yaml" = true →
      ∀ m, file.yaml_load = ParseOutcome.ok m →
        ((cfg.reload now file).1).contents = m) ∧
    (pyEndsWith cfg.filename ".json" = true →
      ∀ m, file.json_load = ParseOutcome.ok m →
        ((cfg.reload now file).1).contents = m) ∧
    (pyEndsWith cfg.filename ".yaml" = false →
      pyEndsWith cfg.filename ".json" = false →
      ((cfg.reload now file).1).contents = cfg.contents ∧
      (cfg.reload now file).2 =
        [LogEvent.error ("Bad config format! " ++ cfg.filename)]) := by
  refine ⟨?_, ?_, ?_⟩
  · intro hy m hm
    unfold LiveConfig.reload
    simp [hp, hy, hm]
  · intro hj m hm
    have hy := pyEndsWith_json_not_yaml cfg.filename hj
    unfold LiveConfig.reload
    simp [hp, hy, hj, hm]
  · intro hy hj
    unfold LiveConfig.reload
    simp [hp, hy, hj]

/-- Witness for C3 at a concrete present file and `.txt` config. -/
theorem C3_format_dispatch_witness :
    goodFile.present = true ∧
    ((pyEndsWith cfgTxt.filename ".yaml" = true →
       ∀ m, goodFile.yaml_load = ParseOutcome.ok m →
         ((cfgTxt.reload 7 goodFile).1).contents = m) ∧
     (pyEndsWith cfgTxt.filename ".json" = true →
       ∀ m, goodFile.json_load = ParseOutcome.ok m →
         ((cfgTxt.reload 7 goodFile).1).contents = m) ∧
     (pyEndsWith cfgTxt.filename ".yaml" = false →
       pyEndsWith cfgTxt.filename ".json" = false →
       ((cfgTxt.reload 7 goodFile).1).contents = cfgTxt.contents ∧
       (cfgTxt.reload 7 goodFile).2 =
         [LogEvent.error ("Bad config format! " ++ cfgTxt.filename)])) :=
  ⟨rfl, C3_format_dispatch cfgTxt 7 goodFile rfl⟩

/-- C5 counterexample: at exactly `T0 + I` (here `10 + 5 = 15`) the
strict comparison `utcnow() > _last_load + delta` is false, so a keyed
read performs *no* reload — the state is returned untouched — although
the claim requires exactly one reload at any time at or after `T0 + I`.
(A reload at 15 would have changed the state, as the second conjunct
shows, so "no reload" and "exactly one reload" are distinguishable.) -/
theorem C5_boundary_read_does_not_reload :
    (cfgPull.getitem "k" 15 goodFile).1 = cfgPull ∧
    (cfgPull.reload 15 goodFile).1 ≠ cfgPull := by decide

/-- C5 (amended): in pull mode with the last reload attempt at `t0` and
interval `I`, a keyed read at `now ≤ t0 + I` performs no reload — the
state is unchanged and the value reflects the existing snapshot — and a
keyed read at `now > t0 + I` (strictly after) performs exactly one
reload before the lookup: the post-state is the single-reload state and
the value comes from its contents. -/
theorem C5_staleness_bound {α : Type} (cfg : LiveConfig α) (key : String)
    (t0 now : Nat) (file : FileState α)
    (hpull : cfg.use_timer = false) (hl : cfg.last_load = some t0) :
    (now ≤ t0 + cfg.reload_every →
      cfg.getitem key now file =
        (cfg, match cfg.contents.lookup key with
              | some v => Except.ok v
              | none => Except.error (PyErr.keyError key))) ∧
    (t0 + cfg.reload_every < now →
      cfg.getitem key now file =
        ((cfg.reload now file).1,
         match ((cfg.reload now file).1).contents.lookup key with
         | some v => Except.ok v
         | none => Except.error (PyErr.keyError key))) := by
  constructor
  · intro hle
    have hs : ¬ t0 + cfg.reload_every < now := by omega
    have h1 : cfg.reload_if_needed now file = Except.ok cfg :=
      LiveConfig.reload_if_needed_eq_self cfg now file (Or.inr ⟨t0, hl, hs⟩)
    unfold LiveConfig.getitem
    rw [h1]
    dsimp only
    cases cfg.contents.lookup key <;> rfl
  · intro hlt
    have h1 : cfg.reload_if_needed now file = Except.ok (cfg.reload now file).1 := by
      unfold LiveConfig.reload_if_needed
      simp [hpull, hl, hlt]
    unfold LiveConfig.getitem
    rw [h1]
    dsimp only
    cases ((cfg.reload now file).1).contents.lookup key <;> rfl

/-- Witness for the amended C5 at `t0 = 10`, `I = 5`, `now = 15`. -/
theorem C5_staleness_bound_witness :
    cfgPull.use_timer = false ∧ cfgPull.last_load = some 10 ∧
    ((15 ≤ 10 + cfgPull.reload_every →
       cfgPull.getitem "k" 15 goodFile =
         (cfgPull, match cfgPull.contents.lookup "k" with
                   | some v => Except.ok v
                   | none => Except.error (PyErr.keyError "k"))) ∧
     (10 + cfgPull.reload_every < 15 →
       cfgPull.getitem "k" 15 goodFile =
         ((cfgPull.reload 15 goodFile).1,
          match ((cfgPull.reload 15 goodFile).1).contents.lookup "k" with
          | some v => Except.ok v
          | none => Except.error (PyErr.keyError "k")))) :=
  ⟨rfl, rfl, C5_staleness_bound cfgPull "k" 10 15 goodFile rfl rfl⟩

/-- C9: `get` never raises for a missing key. On any state whose
timestamp is set (every state the constructor can produce — see C10) or
in timer mode, the staleness check succeeds with some post-state `c`,
and `get` returns `c`'s value for the key when present and the caller's
default — which defaults to `None` (`none`) — when absent. -/
theorem C9_get_returns_default {α : Type} (cfg : LiveConfig α) (key : String)
    (default : Option α) (now : Nat) (file : FileState α)
    (h : cfg.use_timer = true ∨ cfg.last_load.isSome = true) :
    ∃ c, cfg.reload_if_needed now file = Except.ok c ∧
      cfg.get key default now file =
        (c, Except.ok ((c.contents.lookup key).elim default some)) := by
  obtain ⟨c, hc⟩ : ∃ c, cfg.reload_if_needed now file = Except.ok c := by
    unfold LiveConfig.reload_if_needed
    rcases h with h | h
    · exact ⟨cfg, by simp [h]⟩
    · by_cases hut : cfg.use_timer
      · exact ⟨cfg, by simp [hut]⟩
      · cases hl : cfg.last_load with
        | none => rw [hl] at h; simp at h
        | some t =>
          by_cases hlt : t + cfg.reload_every < now
          · exact ⟨(cfg.reload now file).1, by simp [hut, hlt]⟩
          · exact ⟨cfg, by simp [hut, hlt]⟩
  refine ⟨c, hc, ?_⟩
  unfold LiveConfig.get LiveConfig.getitem
  rw [hc]
  dsimp only
  cases c.contents.lookup key <;> rfl

/-- Witness for C9: a missing key with a supplied fallback. -/
theorem C9_get_returns_default_witness :
    (cfgPull.use_timer = true ∨ cfgPull.last_load.isSome = true) ∧
    ∃ c, cfgPull.reload_if_needed 12 goodFile = Except.ok c ∧
      cfgPull.get "missing" (some 99) 12 goodFile =
        (c, Except.ok ((c.contents.lookup "missing").elim (some 99) some)) :=
  ⟨Or.inr rfl, C9_get_returns_default cfgPull "missing" (some 99) 12 goodFile (Or.inr rfl)⟩

/-- C10: the constructor's synchronous reload attempt unconditionally
stamps `_last_load` (it is `some now`, never `None`, whatever the file
state); and on any state with a non-null timestamp, a keyed read keeps
the timestamp non-null and can never fail with the `TypeError` that a
null timestamp would cause in the staleness comparison. -/
theorem C10_timestamp_never_null {α : Type} (filename : String) (re : Nat)
    (ut : Bool) (now : Nat) (file : FileState α) (cfg : LiveConfig α)
    (key : String) (now2 : Nat) (file2 : FileState α)
    (hc : cfg.last_load.isSome = true) :
    (LiveConfig.init filename re ut now file).last_load = some now ∧
    ((cfg.getitem key now2 file2).1).last_load.isSome = true ∧
    ∀ m, (cfg.getitem key now2 file2).2 ≠ Except.error (PyErr.typeError m) := by
  have hex : ∃ c, cfg.reload_if_needed now2 file2 = Except.ok c ∧
      c.last_load.isSome = true := by
    unfold LiveConfig.reload_if_needed
    by_cases hut : cfg.use_timer
    · exact ⟨cfg, by simp [hut], hc⟩
    · cases hl : cfg.last_load with
      | none => rw [hl] at hc; simp at hc
      | some t =>
        by_cases hlt : t + cfg.reload_every < now2
        · refine ⟨(cfg.reload now2 file2).1, by simp [hut, hlt], ?_⟩
          rw [LiveConfig.reload_last_load]
          rfl
        · exact ⟨cfg, by simp [hut, hlt], hc⟩
  obtain ⟨c, hcc, hcs⟩ := hex
  refine ⟨LiveConfig.reload_last_load .., ?_, ?_⟩
  · unfold LiveConfig.getitem
    rw [hcc]
    dsimp only
    cases c.contents.lookup key <;> exact hcs
  · intro m
    unfold LiveConfig.getitem
    rw [hcc]
    dsimp only
    cases c.contents.lookup key <;> simp

/-- Witness for C10 at concrete states on both paths. -/
theorem C10_timestamp_never_null_witness :
    cfgPull.last_load.isSome = true ∧
    ((LiveConfig.init "a.yaml" 60 false 5 missingFile).last_load = some 5 ∧
     ((cfgPull.getitem "k" 15 goodFile).1).last_load.isSome = true ∧
     ∀ m, (cfgPull.getitem "k" 15 goodFile).2 ≠ Except.error (PyErr.typeError m)) :=
  ⟨rfl, C10_timestamp_never_null "a.yaml" 60 false 5 missingFile cfgPull "k" 15 goodFile rfl⟩

/-- C6: a role that exists but has an empty server mapping and a role
that is absent both surface as a `KeyError` — the same kind of
key-not-found error — from `Seer.__getitem__`. For the empty role,
`random.choice` on the empty key list raises `IndexError`, which the
handler translates to `KeyError("<role> not found")`; for the absent
role, the underlying mapping's `KeyError` propagates unchanged (the
`except` clause catches only `IndexError`). -/
theorem C6_empty_role_eq_missing_role (s : Seer) (keyE keyA : String)
    (pickE pickA now : Nat) (file : FileState RoleTable)
    (r1 : LiveConfig RoleTable) (servers : RoleTable)
    (hE : s.roles.getitem keyE now file = (r1, Except.ok servers))
    (hEmpty : Dict.keys servers = [])
    (hA : (s.roles.getitem keyA now file).2 = Except.error (PyErr.keyError keyA)) :
    (∃ m, (s.getitem keyE pickE now file).2 = Except.error (PyErr.keyError m)) ∧
    (∃ m, (s.getitem keyA pickA now file).2 = Except.error (PyErr.keyError m)) := by
  constructor
  · refine ⟨keyE ++ " not found", ?_⟩
    unfold Seer.getitem
    rw [hE]
    dsimp only
    rw [hEmpty]
    rfl
  · cases hr : s.roles.getitem keyA now file with
    | mk ra ea =>
      rw [hr] at hA
      dsimp only at hA
      subst hA
      refine ⟨keyA, ?_⟩
      unfold Seer.getitem
      rw [hr]

/-- The role table `{master: {a: {ip: 1.1.1.1}, b: {ip: 2.2.2.2}}}`
from the spec's P6 example. -/
def masterTable : RoleTable :=
  [("a", some [("ip", PyVal.str "1.1.1.1")]),
   ("b", some [("ip", PyVal.str "2.2.2.2")])]

/-- A present role file parsing to `{master: ..., empty: {}}`. -/
def roleFileEx : FileState RoleTable :=
  ⟨true, ParseOutcome.ok [("master", masterTable), ("empty", [])],
   ParseOutcome.raises⟩

/-- A `Seer` constructed over `roleFileEx` at time 0. -/
def seerEx : Seer := Seer.init "roles.yaml" false 0 roleFileEx

/-- Witness for C6: `{empty: {}}` lookup and a missing role both give a
`KeyError`. -/
theorem C6_empty_role_eq_missing_role_witness :
    seerEx.roles.getitem "empty" 0 roleFileEx = (seerEx.roles, Except.ok []) ∧
    Dict.keys ([] : RoleTable) = [] ∧
    (seerEx.roles.getitem "nonexistent" 0 roleFileEx).2 =
      Except.error (PyErr.keyError "nonexistent") ∧
    ((∃ m, (seerEx.getitem "empty" 3 0 roleFileEx).2 =
        Except.error (PyErr.keyError m)) ∧
     (∃ m, (seerEx.getitem "nonexistent" 3 0 roleFileEx).2 =
        Except.error (PyErr.keyError m))) :=
  ⟨rfl, rfl, rfl,
   C6_empty_role_eq_missing_role seerEx "empty" "nonexistent" 3 3 0 roleFileEx
     seerEx.roles [] rfl rfl rfl⟩

/-- C7: looking up a role with a non-empty server mapping succeeds and
returns the selected server's attribute mapping — or an empty mapping if
the stored value is empty/null — extended with `name` bound to the
selected server name; the selected name is one of the role's server
names, every key other than `name` carries the server's stored attribute
value, and building the result leaves the stored role table untouched
(the post-state is exactly the state `r1` left by the read). -/
theorem C7_role_selection (s : Seer) (key : String) (pick now : Nat)
    (file : FileState RoleTable) (r1 : LiveConfig RoleTable)
    (servers : RoleTable)
    (hE : s.roles.getitem key now file = (r1, Except.ok servers))
    (hne : Dict.keys servers ≠ []) :
    ∃ name data res,
      s.getitem key pick now file = (Seer.mk r1, Except.ok res) ∧
      name ∈ Dict.keys servers ∧
      servers.lookup name = some data ∧
      res = (if ServerData.truthy data then data.getD [] else []).insert
        "name" (PyVal.str name) ∧
      res.lookup "name" = some (PyVal.str name) ∧
      ∀ k, k ≠ "name" → res.lookup k = (data.getD []).lookup k := by
  have hie : (Dict.keys servers).isEmpty = false := by
    cases hk : Dict.keys servers with
    | nil => exact absurd hk hne
    | cons a t => rfl
  have hmem : (Dict.keys servers).getD (pick % (Dict.keys servers).length) ""
      ∈ Dict.keys servers := getD_mod_mem (Dict.keys servers) pick "" hne
  obtain ⟨data, hdata⟩ := Dict.lookup_of_mem_keys servers
    ((Dict.keys servers).getD (pick % (Dict.keys servers).length) "") hmem
  have hstable := LiveConfig.getitem_stable s.roles key now file r1 servers hE
  refine ⟨(Dict.keys servers).getD (pick % (Dict.keys servers).length) "",
    data,
    (if ServerData.truthy data then data.getD [] else []).insert "name"
      (PyVal.str ((Dict.keys servers).getD (pick % (Dict.keys servers).length) "")),
    ?_, hmem, hdata, rfl, ?_, ?_⟩
  · simp only [Seer.getitem, hE, hie, Bool.false_eq_true, if_false, hstable, hdata]
  · exact Dict.lookup_insert_self ..
  · intro k hk
    rw [Dict.lookup_insert_ne _ _ _ _ hk]
    by_cases ht : ServerData.truthy data = true
    · rw [if_pos ht]
    · have ht' : ServerData.truthy data = false := Bool.eq_false_iff.mpr ht
      rw [if_neg ht, ServerData.truthy_false_attrs data ht']

/-- Witness for C7 on the spec's P6 role table, selecting index 1. -/
theorem C7_role_selection_witness :
    seerEx.roles.getitem "master" 0 roleFileEx =
      (seerEx.roles, Except.ok masterTable) ∧
    Dict.keys masterTable ≠ [] ∧
    (∃ name data res,
      seerEx.getitem "master" 1 0 roleFileEx =
        (Seer.mk seerEx.roles, Except.ok res) ∧
      name ∈ Dict.keys masterTable ∧
      masterTable.lookup name = some data ∧
      res = (if ServerData.truthy data then data.getD [] else []).insert
        "name" (PyVal.str name) ∧
      res.lookup "name" = some (PyVal.str name) ∧
      ∀ k, k ≠ "name" → res.lookup k = (data.getD []).lookup k) :=
  ⟨rfl, by decide,
   C7_role_selection seerEx "master" 1 0 roleFileEx seerEx.roles masterTable
     rfl (by decide)⟩
